import Mathlib

/-!
Shallow embedding of the `obs-overlay` web server (Rust, axum/shuttle):
`src/main.rs` and `src/utils/language.rs`.

Modelling conventions:

* `f64` is modelled by `F64`: an exact rational for finite values plus the
  two non-finite values reachable from this program's non-negative inputs
  (`nan` and `+inf`).  The IEEE special cases that the program can reach
  (`0.0 / 0.0 = NaN`, `x / 0.0 = +inf` for `x > 0`, `NaN * 100.0 = NaN`,
  `+inf * 100.0 = +inf`) are modelled exactly; rounding of finite division
  is abstracted to exact rational arithmetic.
* `u64` / `u32` values are modelled as `Nat`.  The one operation that can
  overflow, the `u64` sum of the byte counts, is modelled with its
  release-build wrapping semantics (reduction modulo `2 ^ 64`; a build
  with debug assertions would panic at the same point instead).
* The file system and serde are modelled by pre-resolved outcomes: the
  state of `colors.json` is a `ColorsFile` (unreadable, readable but
  unparsable, or a parsed JSON object of string-to-string entries), and
  the body of the upstream languages response is an
  `Except String (List (String × Nat))` (serde's result of parsing a flat
  JSON object of string to non-negative integer).
* A Rust panic (`expect` / `unwrap`) is modelled by the `panic` constructor
  of `PanicOr`; all other control flow is pure.
* `HashMap<String, u64>` is modelled as an association list; the Rust
  iteration order is unspecified, which the list order generalises.
* `serde_json::Value::to_string()` on a string value serialises it with
  surrounding double quotes; colour values are hex literals with no
  escapes, so this is modelled by `jsonStr`.
-/

/-- Outcome of a Rust computation that can panic. -/
inductive PanicOr (α : Type) where
  | panic (msg : String)
  | ok (a : α)
deriving DecidableEq

/-- The state of the `colors.json` resource as seen by
`fs::read_to_string` followed by `serde_json::from_str`. -/
inductive ColorsFile where
  | unreadable
  | unparsable
  | object (entries : List (String × String))
deriving DecidableEq

/-- JSON serialisation of a string value (no escapes occur in colour data):
`serde_json::Value::String(s).to_string()` is `s` surrounded by quotes. -/
def jsonStr (s : String) : String := "\"" ++ s ++ "\""

/-- First-match association lookup, as `serde_json::Value::get` on an
object keyed by strings. -/
def lookupColor : List (String × String) → String → Option String
  | [], _ => none
  | (k, v) :: rest, language => if k = language then some v else lookupColor rest language

/-- `get_language_color` from `src/utils/language.rs` lines 8-19:
reads `colors.json` (panicking via `.expect` if the read fails), parses it,
and returns the JSON serialisation of the colour found under `language`,
or the JSON serialisation of the empty string when the parse fails or the
name is absent. -/
def get_language_color (file : ColorsFile) (language : String) : PanicOr String :=
  match file with
  | .unreadable => .panic "Failed to read colors.json"
  | .unparsable => .ok (jsonStr "")
  | .object colors =>
    match lookupColor colors language with
    | some color => .ok (jsonStr color)
    | none => .ok (jsonStr "")

/-- Exact model of the `f64` values reachable in this program:
finite rationals, NaN, and positive infinity. -/
inductive F64 where
  | fin (q : ℚ)
  | nan
  | inf
deriving DecidableEq

/-- IEEE division restricted to the values reachable here (both operands
non-negative): a zero divisor yields NaN when the dividend is zero and
+inf otherwise; finite division is exact. -/
def F64.div : F64 → F64 → F64
  | .fin a, .fin b => if b = 0 then (if a = 0 then .nan else .inf) else .fin (a / b)
  | .nan, _ => .nan
  | _, .nan => .nan
  | .inf, .fin _ => .inf
  | .fin _, .inf => .fin 0
  | .inf, .inf => .nan

/-- IEEE multiplication restricted to the values reachable here:
NaN absorbs, `+inf * 0 = NaN`, `+inf * positive = +inf`. -/
def F64.mul : F64 → F64 → F64
  | .fin a, .fin b => .fin (a * b)
  | .nan, _ => .nan
  | _, .nan => .nan
  | .inf, .fin b => if b = 0 then .nan else .inf
  | .fin a, .inf => if a = 0 then .nan else .inf
  | .inf, .inf => .inf

/-- IEEE addition restricted to the values reachable here. -/
def F64.add : F64 → F64 → F64
  | .fin a, .fin b => .fin (a + b)
  | .nan, _ => .nan
  | _, .nan => .nan
  | .inf, _ => .inf
  | _, .inf => .inf

/-- A value is finite when it is neither NaN nor an infinity. -/
def F64.isFinite : F64 → Bool
  | .fin _ => true
  | .nan => false
  | .inf => false

/-- `get_language_size` from `src/utils/language.rs` lines 21-23:
`(*language as f64 / *total as f64) * 100.0`. -/
def get_language_size (language : Nat) (total : Nat) : F64 :=
  F64.mul (F64.div (F64.fin (language : ℚ)) (F64.fin (total : ℚ))) (F64.fin 100)

/-- The `Language` record of `src/main.rs` lines 32-37 (named
`LanguageShare` here because Mathlib already declares `Language`). -/
structure LanguageShare where
  name : String
  size : F64
  color : String
deriving DecidableEq

/-- `str::trim_matches('"')`: remove every leading and every trailing
double-quote character. -/
def trimQuotes (s : String) : String :=
  ⟨((s.data.dropWhile (· = '"')).reverse.dropWhile (· = '"')).reverse⟩

/-- `languages_response.values().sum::<u64>()` (`src/main.rs` line 117):
a `u64` sum, which wraps modulo `2 ^ 64` in release builds once the byte
counts add up past `u64::MAX`. -/
def languagesTotal (m : List (String × Nat)) : Nat :=
  (m.map Prod.snd).sum % 2 ^ 64

/-- The `for (name, value) in languages_response` loop of `src/main.rs`
lines 120-125, with the precomputed total `t`: each entry's size is
`get_language_size(value, t)` and its colour is
`get_language_color(name).trim_matches('"')`.  A panic inside
`get_language_color` (unreadable `colors.json`) aborts the loop. -/
def aggregateLoop (file : ColorsFile) (t : Nat) : List (String × Nat) → PanicOr (List LanguageShare)
  | [] => .ok []
  | (name, value) :: rest =>
    match get_language_color file name with
    | .panic msg => .panic msg
    | .ok color =>
      match aggregateLoop file t rest with
      | .panic msg => .panic msg
      | .ok rest' => .ok ({ name := name, size := get_language_size value t, color := trimQuotes color } :: rest')

/-- `is_success()` on an HTTP status: `200 ≤ status ≤ 299`. -/
def is2xx (status : Nat) : Bool := 200 ≤ status && status ≤ 299

/-- `get_repository_languages` from `src/main.rs` lines 93-128, modelled
from the point where the upstream response (status and body-parse outcome)
is in hand; transport-level send/text failures are outside the model.
A non-2xx status yields the 500 error of lines 101-107; a serde parse
failure yields a 500 error carrying serde's message (line 114-116);
otherwise the parsed mapping is aggregated by the loop of lines 117-127. -/
def get_repository_languages (file : ColorsFile) (status : Nat)
    (parsed : Except String (List (String × Nat))) :
    PanicOr (Except (Nat × String) (List LanguageShare)) :=
  if is2xx status = false then
    .ok (.error (500, "Error fetching language data. Status code: " ++ toString status))
  else
    match parsed with
    | .error e => .ok (.error (500, e))
    | .ok m =>
      match aggregateLoop file (languagesTotal m) m with
      | .panic msg => .panic msg
      | .ok languages => .ok (.ok languages)

/-- The owner object of the upstream repository payload, as used by
`get_repository`: `owner.login` and `owner.avatar_url` (the latter is not
optional inside an owner in the octocrab model). -/
structure Owner where
  login : String
  avatar_url : String
deriving DecidableEq

/-- The fields of the octocrab `Repository` payload read by
`get_repository` (`src/main.rs` lines 139-160); the optional ones are
`Option`s exactly as in the upstream model. -/
structure Repository where
  name : String
  owner : Option Owner
  html_url : Option String
  languages_url : Option String
  open_issues_count : Option Nat
  stargazers_count : Option Nat
  watchers_count : Option Nat
  forks_count : Option Nat
deriving DecidableEq

/-- The `RepoTemplate` view-model of `src/main.rs` lines 52-64. -/
structure RepoTemplate where
  name : String
  owner : String
  html_url : String
  avatar_url : String
  open_issues_count : Nat
  stargazers_count : Nat
  watchers_count : Nat
  forks_count : Nat
  languages : List LanguageShare
deriving DecidableEq

/-- The `RepoTemplate` construction of `src/main.rs` lines 142-161:
missing counters default to `0` via `unwrap_or(0)`, a missing owner yields
`"unknown"` for the owner login and `"/"` for the avatar URL, and a
missing `html_url` yields `"/"`. -/
def buildTemplate (repo : Repository) (languages : List LanguageShare) : RepoTemplate :=
  { name := repo.name
    owner := match repo.owner with
      | some owner => owner.login
      | none => "unknown"
    html_url := match repo.html_url with
      | some url => url
      | none => "/"
    avatar_url := match repo.owner with
      | some owner => owner.avatar_url
      | none => "/"
    open_issues_count := repo.open_issues_count.getD 0
    stargazers_count := repo.stargazers_count.getD 0
    watchers_count := repo.watchers_count.getD 0
    forks_count := repo.forks_count.getD 0
    languages := languages }

/-- Observable outcome of one `/api/repo/:owner/:repo` request: a panic
inside the handler, a scoped `(StatusCode, String)` error response, or a
rendered template. -/
inductive HandlerOutcome where
  | panic (msg : String)
  | err (status : Nat) (msg : String)
  | ok (t : RepoTemplate)
deriving DecidableEq

/-- `true` exactly on the scoped per-request error responses
(`Err((StatusCode, String))` returned by the handler). -/
def HandlerOutcome.isErrorResponse : HandlerOutcome → Bool
  | .err _ _ => true
  | _ => false

/-- `get_repository` from `src/main.rs` lines 130-164, modelled from the
pre-resolved outcome of the octocrab fetch (`fetched`) and of the
languages sub-request (`langs`, indexed by the languages URL).  A fetch
error is mapped to a 500 response (line 137); then line 140 unwraps
`languages_url` — a missing URL panics; then the languages result is
propagated via `?`, and on success the view-model is built. -/
def get_repository (fetched : Except String Repository)
    (langs : String → PanicOr (Except (Nat × String) (List LanguageShare))) :
    HandlerOutcome :=
  match fetched with
  | .error e => .err 500 e
  | .ok response =>
    match response.languages_url with
    | none => .panic "called `Option::unwrap()` on a `None` value"
    | some url =>
      match langs url with
      | .panic msg => .panic msg
      | .ok (.error (status, msg)) => .err status msg
      | .ok (.ok languages) => .ok (buildTemplate response languages)

/-- An HTTP response as observed by the client: status code and body. -/
structure HttpResponse where
  status : Nat
  body : String
deriving DecidableEq

/-- `HtmlTemplate::into_response` from `src/main.rs` lines 72-81, with the
render outcome pre-resolved: a successful render becomes a 200 HTML
response, a render error becomes a 500 response carrying the error
message.  Both branches return a response; the function has no panicking
path. -/
def into_response (render : Except String String) : HttpResponse :=
  match render with
  | .ok html => { status := 200, body := html }
  | .error err => { status := 500, body := "Failed to render template. Error: " ++ err }

/-- The string `get_language_color` returns when the resource is readable
(the `Ok` branches of the `match` in `src/utils/language.rs` lines 12-18);
its value on an unreadable file is irrelevant and only quoted under a
readability hypothesis. -/
def colorStr (file : ColorsFile) (language : String) : String :=
  match file with
  | .unreadable => jsonStr ""
  | .unparsable => jsonStr ""
  | .object colors =>
    match lookupColor colors language with
    | some color => jsonStr color
    | none => jsonStr ""

/-- The list of `Language` records produced by the aggregation loop when
`colors.json` is readable: one record per input pair, in input order. -/
def aggregatePure (file : ColorsFile) (t : Nat) (m : List (String × Nat)) : List LanguageShare :=
  m.map fun p => { name := p.1, size := get_language_size p.2 t, color := trimQuotes (colorStr file p.1) }

/-- Floating-point sum of the `size` fields of a list of entries. -/
def sumSizes (languages : List LanguageShare) : F64 :=
  (languages.map LanguageShare.size).foldr F64.add (F64.fin 0)

/-- `true` exactly when the languages fetch returned the scoped upstream
error (`Err((StatusCode, String))`). -/
def upstreamFailed : PanicOr (Except (Nat × String) (List LanguageShare)) → Bool
  | .ok (.error _) => true
  | _ => false

/-- `true` exactly when the body parse succeeded. -/
def parsedOk : Except String (List (String × Nat)) → Bool
  | .ok _ => true
  | .error _ => false

lemma get_language_color_readable (file : ColorsFile) (hf : file ≠ ColorsFile.unreadable)
    (language : String) : get_language_color file language = .ok (colorStr file language) := by
  cases file with
  | unreadable => exact absurd rfl hf
  | unparsable => rfl
  | object colors =>
    simp only [get_language_color, colorStr]
    cases lookupColor colors language <;> rfl

lemma aggregateLoop_readable (file : ColorsFile) (hf : file ≠ ColorsFile.unreadable)
    (t : Nat) (m : List (String × Nat)) :
    aggregateLoop file t m = .ok (aggregatePure file t m) := by
  induction m with
  | nil => rfl
  | cons p rest ih =>
    obtain ⟨name, value⟩ := p
    simp only [aggregateLoop, get_language_color_readable file hf, ih, aggregatePure, List.map_cons]

lemma get_language_size_pos (value t : Nat) (ht : t ≠ 0) :
    get_language_size value t = F64.fin ((value : ℚ) * 100 / t) := by
  have ht' : (t : ℚ) ≠ 0 := Nat.cast_ne_zero.mpr ht
  simp only [get_language_size, F64.div, if_neg ht', F64.mul]
  rw [div_mul_eq_mul_div]

lemma get_language_size_pos_zero (value : Nat) (hv : 0 < value) :
    get_language_size value 0 = F64.inf := by
  have hv' : (value : ℚ) ≠ 0 := Nat.cast_ne_zero.mpr hv.ne'
  simp [get_language_size, F64.div, F64.mul, hv']

lemma foldr_add_fin {α : Type} (f : α → ℚ) (l : List α) :
    (l.map fun a => F64.fin (f a)).foldr F64.add (F64.fin 0) = F64.fin ((l.map f).sum) := by
  induction l with
  | nil => simp
  | cons a rest ih => simp [F64.add, ih]

lemma map_size_aggregatePure (file : ColorsFile) (t : Nat) (m : List (String × Nat)) :
    (aggregatePure file t m).map LanguageShare.size = m.map fun p => get_language_size p.2 t := by
  induction m with
  | nil => rfl
  | cons p rest ih => simp only [aggregatePure, List.map_cons] at ih ⊢; rw [ih]

lemma sumSizes_aggregatePure (file : ColorsFile) (m : List (String × Nat))
    (hfit : (m.map Prod.snd).sum < 2 ^ 64) (ht : languagesTotal m ≠ 0) :
    sumSizes (aggregatePure file (languagesTotal m) m) = F64.fin 100 := by
  have hsum : languagesTotal m = (m.map Prod.snd).sum := by
    rw [languagesTotal]; exact Nat.mod_eq_of_lt hfit
  have ht' : ((languagesTotal m : ℕ) : ℚ) ≠ 0 := Nat.cast_ne_zero.mpr ht
  rw [sumSizes, map_size_aggregatePure]
  rw [show (m.map fun p => get_language_size p.2 (languagesTotal m)) =
      m.map fun p => F64.fin ((p.2 : ℚ) * 100 / (languagesTotal m : ℚ)) from
    List.map_congr_left fun p _ => get_language_size_pos p.2 (languagesTotal m) ht]
  rw [foldr_add_fin (fun p => ((p.2 : ℚ) * 100 / (languagesTotal m : ℚ))) m]
  congr 1
  have hmap : ∀ (l : List (String × Nat)) (c : ℚ),
      (l.map fun p => ((p.2 : ℚ) * 100 / c)).sum = (l.map fun p => ((p.2 : ℚ))).sum * 100 / c := by
    intro l c
    induction l with
    | nil => simp
    | cons p rest ih => simp only [List.map_cons, List.sum_cons, ih]; ring
  rw [hmap m (languagesTotal m : ℚ)]
  have hcast : (m.map fun p => ((p.2 : ℕ) : ℚ)).sum = ((languagesTotal m : ℕ) : ℚ) := by
    rw [hsum, Nat.cast_list_sum, List.map_map]
    rfl
  rw [hcast, mul_comm, mul_div_assoc, div_self ht', mul_one]

/-- A concrete repository payload whose `languages_url` field is absent. -/
def repoNoLangUrl : Repository :=
  { name := "demo", owner := some { login := "alice", avatar_url := "https://avatars.example/alice" }
    html_url := some "https://github.com/alice/demo", languages_url := none
    open_issues_count := some 1, stargazers_count := some 2
    watchers_count := some 3, forks_count := some 4 }

/-- A languages sub-request that always succeeds with no entries. -/
def langsStub : String → PanicOr (Except (Nat × String) (List LanguageShare)) :=
  fun _ => .ok (.ok [])

/-- A concrete parsed colour table containing only Go and Rust. -/
def colorsGoRust : ColorsFile :=
  ColorsFile.object [("Go", "#00ADD8"), ("Rust", "#dea584")]

/-- C1, counterexample: when `colors.json` cannot be read,
`get_language_color` does not return an empty colour string — it panics
through `.expect("Failed to read colors.json")`, so the lookup for `"Go"`
aborts instead of producing any string. -/
theorem get_language_color_unreadable_panics :
    get_language_color ColorsFile.unreadable "Go" = PanicOr.panic "Failed to read colors.json" ∧
    get_language_color ColorsFile.unreadable "Go" ≠ PanicOr.ok "" := by
  exact ⟨rfl, by decide⟩

/-- C1, amended: `get_language_color` swallows a parse failure and an
absent name, returning the JSON serialisation of the empty string in both
cases, but an unreadable `colors.json` makes it panic (via `.expect`) for
every lookup rather than yield an empty colour string. -/
theorem get_language_color_swallow_amended (language : String) :
    get_language_color ColorsFile.unreadable language = .panic "Failed to read colors.json" ∧
    get_language_color ColorsFile.unparsable language = .ok (jsonStr "") ∧
    ∀ colors : List (String × String), lookupColor colors language = none →
      get_language_color (ColorsFile.object colors) language = .ok (jsonStr "") := by
  refine ⟨rfl, rfl, fun colors h => ?_⟩
  simp [get_language_color, h]

/-- C1, witness: the amended statement evaluated at `"Go"` with the empty
colour table. -/
theorem get_language_color_swallow_amended_witness :
    lookupColor [] "Go" = none ∧
    get_language_color (ColorsFile.object []) "Go" = .ok (jsonStr "") ∧
    get_language_color ColorsFile.unparsable "Go" = .ok (jsonStr "") :=
  ⟨rfl, (get_language_color_swallow_amended "Go").2.2 [] rfl,
    (get_language_color_swallow_amended "Go").2.1⟩

/-- C2, counterexample: for a fetched repository payload without a
`languages_url`, the handler does not produce a scoped error response: it
panics on the unconditional `unwrap()` at `src/main.rs` line 140. -/
theorem get_repository_missing_languages_url_not_scoped :
    (get_repository (.ok repoNoLangUrl) langsStub).isErrorResponse = false ∧
    get_repository (.ok repoNoLangUrl) langsStub =
      .panic "called `Option::unwrap()` on a `None` value" := by
  exact ⟨rfl, rfl⟩

/-- C2, amended: the handler maps an upstream fetch failure and a failed
languages sub-request to scoped per-request `(status, message)` error
responses, but a payload lacking the languages URL makes it panic on
`unwrap()` instead of producing any error response. -/
theorem get_repository_error_scoping (fetched : Except String Repository)
    (langs : String → PanicOr (Except (Nat × String) (List LanguageShare))) :
    (∀ e, fetched = .error e → get_repository fetched langs = .err 500 e) ∧
    (∀ repo, fetched = .ok repo → repo.languages_url = none →
      get_repository fetched langs = .panic "called `Option::unwrap()` on a `None` value") ∧
    (∀ repo url status msg, fetched = .ok repo → repo.languages_url = some url →
      langs url = .ok (.error (status, msg)) → get_repository fetched langs = .err status msg) := by
  refine ⟨fun e he => ?_, fun repo hr hu => ?_, fun repo url status msg hr hu hl => ?_⟩
  · rw [he]; rfl
  · rw [hr]; simp [get_repository, hu]
  · rw [hr]; simp [get_repository, hu, hl]

/-- C2, witness: the amended statement evaluated at a failed fetch and at
the payload without a languages URL. -/
theorem get_repository_error_scoping_witness :
    get_repository (.error "boom") langsStub = .err 500 "boom" ∧
    get_repository (.ok repoNoLangUrl) langsStub =
      .panic "called `Option::unwrap()` on a `None` value" :=
  ⟨(get_repository_error_scoping (.error "boom") langsStub).1 "boom" rfl,
    (get_repository_error_scoping (.ok repoNoLangUrl) langsStub).2.1 repoNoLangUrl rfl rfl⟩

/-- C3, counterexample: for a name absent from the colour table,
`get_language_color` does not return the empty string: it returns the
two-character JSON serialisation `"\x22\x22"` of the empty string. -/
theorem get_language_color_absent_not_empty :
    get_language_color (ColorsFile.object [("Go", "#00ADD8")]) "__unknown_language__" ≠
      PanicOr.ok "" ∧
    get_language_color (ColorsFile.object [("Go", "#00ADD8")]) "__unknown_language__" =
      PanicOr.ok (jsonStr "") := by
  exact ⟨by decide, by decide⟩

/-- C3, amended: for every name absent from a parsed colour table,
`get_language_color` returns — never an error — the JSON-quoted empty
string (serde's serialisation of `""`), which the call site's
`trim_matches('"')` reduces to the empty string. -/
theorem get_language_color_absent_json_empty (colors : List (String × String)) (language : String)
    (h : lookupColor colors language = none) :
    get_language_color (ColorsFile.object colors) language = .ok (jsonStr "") ∧
    trimQuotes (jsonStr "") = "" := by
  refine ⟨?_, by decide⟩
  simp [get_language_color, h]

/-- C3, witness: the amended statement evaluated at the one-entry Go table
and the name `"__unknown_language__"`. -/
theorem get_language_color_absent_json_empty_witness :
    lookupColor [("Go", "#00ADD8")] "__unknown_language__" = none ∧
    (get_language_color (ColorsFile.object [("Go", "#00ADD8")]) "__unknown_language__" =
      .ok (jsonStr "") ∧ trimQuotes (jsonStr "") = "") :=
  ⟨by decide, get_language_color_absent_json_empty [("Go", "#00ADD8")] "__unknown_language__"
    (by decide)⟩

instance {ε α : Type} [DecidableEq ε] [DecidableEq α] : DecidableEq (Except ε α) := fun a b =>
  match a, b with
  | .error e, .error e' =>
    if h : e = e' then .isTrue (by rw [h]) else .isFalse (by intro hc; cases hc; exact h rfl)
  | .ok x, .ok x' =>
    if h : x = x' then .isTrue (by rw [h]) else .isFalse (by intro hc; cases hc; exact h rfl)
  | .error _, .ok _ => .isFalse (by intro hc; cases hc)
  | .ok _, .error _ => .isFalse (by intro hc; cases hc)

lemma get_repository_languages_ok (file : ColorsFile) (hf : file ≠ ColorsFile.unreadable)
    (status : Nat) (hs : is2xx status = true) (m : List (String × Nat)) :
    get_repository_languages file status (.ok m) =
      .ok (.ok (aggregatePure file (languagesTotal m) m)) := by
  simp only [get_repository_languages, hs, aggregateLoop_readable file hf]
  simp

lemma languagesTotal_eq_zero (m : List (String × Nat)) (h : ∀ p ∈ m, p.2 = 0) :
    languagesTotal m = 0 := by
  have h0 : (m.map Prod.snd).sum = 0 := by
    apply List.sum_eq_zero
    intro x hx
    obtain ⟨p, hp, rfl⟩ := List.mem_map.mp hx
    exact h p hp
  rw [languagesTotal, h0]
  simp

/-- C4, counterexample: with a readable but empty colour table, aggregating
`{"Go": 300, "Rust": 700}` yields percentages 30 and 70, but each entry's
`color` field is the quote-trimmed string `""` while `get_language_color`
itself returns the two-character JSON string — so the colour field does not
equal the raw `get_language_color` result. -/
theorem aggregate_color_not_raw_lookup :
    get_repository_languages (ColorsFile.object []) 200 (.ok [("Go", 300), ("Rust", 700)]) =
      .ok (.ok [{ name := "Go", size := F64.fin 30, color := "" },
        { name := "Rust", size := F64.fin 70, color := "" }]) ∧
    get_language_color (ColorsFile.object []) "Go" = .ok (jsonStr "") ∧
    ("" : String) ≠ jsonStr "" := by
  have h30 : get_language_size 300 1000 = F64.fin 30 := by
    rw [get_language_size_pos 300 1000 (by norm_num)]; norm_num
  have h70 : get_language_size 700 1000 = F64.fin 70 := by
    rw [get_language_size_pos 700 1000 (by norm_num)]; norm_num
  refine ⟨?_, by decide, by decide⟩
  rw [get_repository_languages_ok (ColorsFile.object []) (by decide) 200 rfl]
  rw [show languagesTotal [("Go", 300), ("Rust", 700)] = 1000 from rfl]
  have hc : trimQuotes (colorStr (ColorsFile.object []) "Go") = "" := by decide
  have hc2 : trimQuotes (colorStr (ColorsFile.object []) "Rust") = "" := by decide
  simp [aggregatePure, h30, h70, hc, hc2]

/-- C4, amended: for every readable colour resource, aggregating
`{"Go": 300, "Rust": 700}` yields exactly two entries with percentages
30 and 70, and each entry's colour equals the `get_language_color` result
for that name with surrounding double quotes trimmed (as the call site
does at `src/main.rs` line 122). -/
theorem aggregate_go_rust_shares (file : ColorsFile) (hf : file ≠ ColorsFile.unreadable) :
    get_language_color file "Go" = .ok (colorStr file "Go") ∧
    get_language_color file "Rust" = .ok (colorStr file "Rust") ∧
    get_repository_languages file 200 (.ok [("Go", 300), ("Rust", 700)]) =
      .ok (.ok [{ name := "Go", size := F64.fin 30, color := trimQuotes (colorStr file "Go") },
        { name := "Rust", size := F64.fin 70, color := trimQuotes (colorStr file "Rust") }]) := by
  have h30 : get_language_size 300 1000 = F64.fin 30 := by
    rw [get_language_size_pos 300 1000 (by norm_num)]; norm_num
  have h70 : get_language_size 700 1000 = F64.fin 70 := by
    rw [get_language_size_pos 700 1000 (by norm_num)]; norm_num
  refine ⟨get_language_color_readable file hf "Go", get_language_color_readable file hf "Rust", ?_⟩
  rw [get_repository_languages_ok file hf 200 rfl]
  rw [show languagesTotal [("Go", 300), ("Rust", 700)] = 1000 from rfl]
  simp [aggregatePure, h30, h70]

/-- C4, witness: the amended statement evaluated at the concrete Go/Rust
colour table. -/
theorem aggregate_go_rust_shares_witness :
    colorsGoRust ≠ ColorsFile.unreadable ∧
    (get_language_color colorsGoRust "Go" = .ok (colorStr colorsGoRust "Go") ∧
     get_language_color colorsGoRust "Rust" = .ok (colorStr colorsGoRust "Rust") ∧
     get_repository_languages colorsGoRust 200 (.ok [("Go", 300), ("Rust", 700)]) =
       .ok (.ok [{ name := "Go", size := F64.fin 30,
                   color := trimQuotes (colorStr colorsGoRust "Go") },
         { name := "Rust", size := F64.fin 70,
           color := trimQuotes (colorStr colorsGoRust "Rust") }])) :=
  ⟨by decide, aggregate_go_rust_shares colorsGoRust (by decide)⟩

/-- C5: for the empty raw mapping the languages fetch returns the empty
sequence (`Ok(vec![])`): the aggregation loop body — and with it the
percentage division — is never reached, for any state of the colour
resource. -/
theorem aggregate_empty_map (file : ColorsFile) :
    get_repository_languages file 200 (.ok []) = .ok (.ok []) := rfl

/-- C6, counterexample: the `u64` total wraps. For the two-entry mapping
with byte counts `2 ^ 63` and `2 ^ 63` — both valid `u64` values, with a
non-empty mapping and a positive byte-count total of `2 ^ 64` — the
program's `sum::<u64>()` wraps to `0`, each percentage evaluates to +inf,
and the floating-point sum of the produced percentages is +inf, not
approximately 100. -/
theorem aggregate_overflow_sum_not_100 :
    (2 ^ 63 : Nat) < 2 ^ 64 ∧
    ([("A", (2 : Nat) ^ 63), ("B", 2 ^ 63)] : List (String × Nat)) ≠ [] ∧
    0 < (([("A", (2 : Nat) ^ 63), ("B", 2 ^ 63)] : List (String × Nat)).map Prod.snd).sum ∧
    languagesTotal [("A", 2 ^ 63), ("B", 2 ^ 63)] = 0 ∧
    get_repository_languages ColorsFile.unparsable 200 (.ok [("A", 2 ^ 63), ("B", 2 ^ 63)]) =
      .ok (.ok (aggregatePure ColorsFile.unparsable 0 [("A", 2 ^ 63), ("B", 2 ^ 63)])) ∧
    sumSizes (aggregatePure ColorsFile.unparsable 0 [("A", 2 ^ 63), ("B", 2 ^ 63)]) = F64.inf ∧
    F64.inf ≠ F64.fin 100 := by
  have hTot : languagesTotal [("A", (2 : Nat) ^ 63), ("B", 2 ^ 63)] = 0 := by
    norm_num [languagesTotal]
  have hinf : get_language_size 9223372036854775808 0 = F64.inf :=
    get_language_size_pos_zero 9223372036854775808 (by norm_num)
  refine ⟨by norm_num, by simp, by norm_num, hTot, ?_, ?_, by simp⟩
  · rw [get_repository_languages_ok ColorsFile.unparsable (by simp) 200 rfl, hTot]
  · rw [sumSizes, map_size_aggregatePure]
    simp [hinf, F64.add]

/-- C6, amended: for every non-empty mapping whose byte-count total is
positive and small enough that the `u64` sum does not overflow, the
aggregation succeeds (given a readable colour resource) and the
floating-point sum of the produced percentages is exactly 100 in the
exact-rational model of `f64` — in particular within any floating-point
tolerance.  (When the sum overflows `u64`, the wrapped total makes the
percentages meaningless: see the counterexample, where they sum to +inf.) -/
theorem aggregate_percentages_sum_100 (file : ColorsFile) (m : List (String × Nat))
    (hf : file ≠ ColorsFile.unreadable) (_hm : m ≠ [])
    (hfit : (m.map Prod.snd).sum < 2 ^ 64) (ht : 0 < languagesTotal m) :
    get_repository_languages file 200 (.ok m) =
      .ok (.ok (aggregatePure file (languagesTotal m) m)) ∧
    sumSizes (aggregatePure file (languagesTotal m) m) = F64.fin 100 :=
  ⟨get_repository_languages_ok file hf 200 rfl m, sumSizes_aggregatePure file m hfit ht.ne'⟩

/-- C6, witness: the amended statement evaluated at a one-entry mapping. -/
theorem aggregate_percentages_sum_100_witness :
    ColorsFile.unparsable ≠ ColorsFile.unreadable ∧
    ([("A", 1)] : List (String × Nat)) ≠ [] ∧
    (([("A", 1)] : List (String × Nat)).map Prod.snd).sum < 2 ^ 64 ∧
    0 < languagesTotal [("A", 1)] ∧
    (get_repository_languages ColorsFile.unparsable 200 (.ok [("A", 1)]) =
        .ok (.ok (aggregatePure ColorsFile.unparsable (languagesTotal [("A", 1)]) [("A", 1)])) ∧
      sumSizes (aggregatePure ColorsFile.unparsable (languagesTotal [("A", 1)]) [("A", 1)]) =
        F64.fin 100) :=
  ⟨by decide, by decide, by norm_num, by norm_num [languagesTotal],
    aggregate_percentages_sum_100 ColorsFile.unparsable [("A", 1)] (by decide) (by decide)
      (by norm_num) (by norm_num [languagesTotal])⟩

/-- C7: with a readable colour resource, the languages fetch returns the
scoped upstream error exactly when the response status is non-2xx or the
body fails to parse as a flat string-to-integer JSON object; and whenever
the status is 2xx and the body parses to `m`, it succeeds with the
aggregation of `m` (transport-level send/text failures are outside the
model). -/
theorem get_repository_languages_error_iff (file : ColorsFile) (status : Nat)
    (parsed : Except String (List (String × Nat))) (m : List (String × Nat))
    (hf : file ≠ ColorsFile.unreadable) :
    (upstreamFailed (get_repository_languages file status parsed) = true ↔
      (is2xx status = false ∨ parsedOk parsed = false)) ∧
    (is2xx status = true → parsed = .ok m →
      get_repository_languages file status parsed =
        .ok (.ok (aggregatePure file (languagesTotal m) m))) := by
  constructor
  · cases h2 : is2xx status with
    | false =>
      simp only [get_repository_languages, h2]
      simp [upstreamFailed]
    | true =>
      cases parsed with
      | error e =>
        simp only [get_repository_languages, h2]
        simp [upstreamFailed, parsedOk]
      | ok mm =>
        rw [get_repository_languages_ok file hf status h2 mm]
        simp [upstreamFailed, parsedOk, h2]
  · intro hs hp
    rw [hp, get_repository_languages_ok file hf status hs m]

/-- C7, witness: the statement evaluated at a 2xx status with a parsed
one-entry body, and the hypotheses discharged concretely. -/
theorem get_repository_languages_error_iff_witness :
    ColorsFile.unparsable ≠ ColorsFile.unreadable ∧
    ((upstreamFailed (get_repository_languages ColorsFile.unparsable 200
        (Except.ok [("TypeScript", 1000)])) = true ↔
      (is2xx 200 = false ∨ parsedOk (Except.ok [("TypeScript", 1000)]) = false)) ∧
    (is2xx 200 = true →
      (Except.ok [("TypeScript", 1000)] : Except String (List (String × Nat))) =
        Except.ok [("TypeScript", 1000)] →
      get_repository_languages ColorsFile.unparsable 200 (Except.ok [("TypeScript", 1000)]) =
        .ok (.ok (aggregatePure ColorsFile.unparsable
          (languagesTotal [("TypeScript", 1000)]) [("TypeScript", 1000)])))) :=
  ⟨by decide, get_repository_languages_error_iff ColorsFile.unparsable 200
    (Except.ok [("TypeScript", 1000)]) [("TypeScript", 1000)] (by decide)⟩

/-- C8: the response layer is total on render outcomes — a successful
render yields the rendered HTML with status 200, and a render failure
yields a 500-class (here exactly 500) response whose body carries the
error message; no panicking path exists in `into_response`. -/
theorem into_response_spec :
    (∀ html : String, into_response (.ok html) = { status := 200, body := html }) ∧
    (∀ e : String, 500 ≤ (into_response (.error e)).status ∧
      (into_response (.error e)).status < 600 ∧
      (into_response (.error e)).body = "Failed to render template. Error: " ++ e) :=
  ⟨fun _ => rfl, fun _ => ⟨by norm_num [into_response], by norm_num [into_response], rfl⟩⟩

/-- C9: in the view-model assembly, each missing optional counter defaults
to zero, a missing owner yields the owner string `"unknown"` and the
avatar URL `"/"` (the avatar URL comes from the owner object, so it is
missing exactly when the owner is), and a missing canonical URL yields
`"/"`. -/
theorem buildTemplate_defaults (repo : Repository) (languages : List LanguageShare) :
    (repo.open_issues_count = none → (buildTemplate repo languages).open_issues_count = 0) ∧
    (repo.stargazers_count = none → (buildTemplate repo languages).stargazers_count = 0) ∧
    (repo.watchers_count = none → (buildTemplate repo languages).watchers_count = 0) ∧
    (repo.forks_count = none → (buildTemplate repo languages).forks_count = 0) ∧
    (repo.owner = none → (buildTemplate repo languages).owner = "unknown" ∧
      (buildTemplate repo languages).avatar_url = "/") ∧
    (repo.html_url = none → (buildTemplate repo languages).html_url = "/") := by
  refine ⟨fun h => ?_, fun h => ?_, fun h => ?_, fun h => ?_, fun h => ⟨?_, ?_⟩, fun h => ?_⟩ <;>
    simp [buildTemplate, h]

/-- A concrete repository payload with every optional field absent. -/
def repoAllMissing : Repository :=
  { name := "demo", owner := none, html_url := none, languages_url := none
    open_issues_count := none, stargazers_count := none
    watchers_count := none, forks_count := none }

/-- C9, witness: the defaults evaluated on the payload with every optional
field absent. -/
theorem buildTemplate_defaults_witness :
    (buildTemplate repoAllMissing []).open_issues_count = 0 ∧
    (buildTemplate repoAllMissing []).stargazers_count = 0 ∧
    (buildTemplate repoAllMissing []).watchers_count = 0 ∧
    (buildTemplate repoAllMissing []).forks_count = 0 ∧
    (buildTemplate repoAllMissing []).owner = "unknown" ∧
    (buildTemplate repoAllMissing []).avatar_url = "/" ∧
    (buildTemplate repoAllMissing []).html_url = "/" :=
  ⟨(buildTemplate_defaults repoAllMissing []).1 rfl,
    (buildTemplate_defaults repoAllMissing []).2.1 rfl,
    (buildTemplate_defaults repoAllMissing []).2.2.1 rfl,
    (buildTemplate_defaults repoAllMissing []).2.2.2.1 rfl,
    ((buildTemplate_defaults repoAllMissing []).2.2.2.2.1 rfl).1,
    ((buildTemplate_defaults repoAllMissing []).2.2.2.2.1 rfl).2,
    (buildTemplate_defaults repoAllMissing []).2.2.2.2.2 rfl⟩

/-- C10: `get_language_size` is total — in particular with a zero total it
returns NaN for a zero value and +inf for a positive value — and for any
non-empty mapping whose byte counts are all zero (and a readable colour
resource) the aggregation succeeds with entries whose size is non-finite
rather than producing an error. -/
theorem get_language_size_zero_total :
    get_language_size 0 0 = F64.nan ∧
    (∀ value : Nat, 0 < value → get_language_size value 0 = F64.inf) ∧
    (∀ (file : ColorsFile) (m : List (String × Nat)), file ≠ ColorsFile.unreadable → m ≠ [] →
      (∀ p ∈ m, p.2 = 0) →
      get_repository_languages file 200 (.ok m) = .ok (.ok (aggregatePure file 0 m)) ∧
      aggregatePure file 0 m ≠ [] ∧
      ∀ l ∈ aggregatePure file 0 m, l.size.isFinite = false) := by
  refine ⟨rfl, fun value hv => ?_, fun file m hf hm hz => ⟨?_, ?_, ?_⟩⟩
  · exact get_language_size_pos_zero value hv
  · rw [get_repository_languages_ok file hf 200 rfl m, languagesTotal_eq_zero m hz]
  · simp [aggregatePure, hm]
  · intro l hl
    simp only [aggregatePure] at hl
    obtain ⟨p, hp, rfl⟩ := List.mem_map.mp hl
    rw [show p.2 = 0 from hz p hp]
    rfl

/-- C10, witness: the statement evaluated at value 5 with zero total, and
at the all-zero one-entry mapping `{"A": 0}`. -/
theorem get_language_size_zero_total_witness :
    0 < 5 ∧ get_language_size 5 0 = F64.inf ∧
    get_repository_languages ColorsFile.unparsable 200 (.ok [("A", 0)]) =
      .ok (.ok (aggregatePure ColorsFile.unparsable 0 [("A", 0)])) :=
  ⟨by decide, get_language_size_zero_total.2.1 5 (by decide),
    (get_language_size_zero_total.2.2 ColorsFile.unparsable [("A", 0)] (by decide) (by decide)
      (by decide)).1⟩
